import Mathlib

/-!
Verification of the market data plane and decision core of a binary-market
trading engine, as a shallow embedding in Lean 4.

Python floats are modelled as rationals (`ℚ`); machine counters as `ℕ`/`ℤ`.
Wall-clock fields (`datetime` timestamps) are omitted or passed explicitly as
a duration parameter where an algorithm reads them.  Python truthiness tests
on optional floats (`if x:`) are modelled by `optTruthy`, which is false for
`none` and for `some 0`.
-/

namespace Spec2Proof

/-- Python truthiness of an optional float: `None` and `0.0` are falsy. -/
def optTruthy : Option ℚ → Bool
  | none => false
  | some x => x != 0

/-! ## Gabagool: PairPosition (src/core/gabagool.py) -/

/-- Embeds `PairPosition` from src/core/gabagool.py.  The identity strings
`token_yes_id`, `token_no_id`, `question` and the `created_at` /
`last_trade_at` timestamps are omitted: no claim reads them. -/
structure PairPosition where
  market_id : String
  qty_yes : ℚ := 0
  qty_no : ℚ := 0
  cost_yes : ℚ := 0
  cost_no : ℚ := 0
  trades_yes : ℕ := 0
  trades_no : ℕ := 0
  cached_avg_yes : ℚ := 0
  cached_avg_no : ℚ := 0
  cached_pair_cost : ℚ := 1
  cached_is_locked : Bool := false
deriving Repr, DecidableEq

/-- `PairPosition._update_cache`: recomputes every cached value from the raw
fields. -/
def updateCache (p : PairPosition) : PairPosition :=
  let avgY : ℚ := if 0 < p.qty_yes then p.cost_yes / p.qty_yes else 0
  let avgN : ℚ := if 0 < p.qty_no then p.cost_no / p.qty_no else 0
  let pc : ℚ := if 0 < p.qty_yes ∧ 0 < p.qty_no then avgY + avgN else 1
  let lockedProfit : ℚ := min p.qty_yes p.qty_no - (p.cost_yes + p.cost_no)
  { p with
    cached_avg_yes := avgY
    cached_avg_no := avgN
    cached_pair_cost := pc
    cached_is_locked := decide (0 < lockedProfit) }

/-- Building a `PairPosition`: the dataclass constructor followed by
`__post_init__`, which calls `_update_cache`. -/
def mkPairPosition (mid : String) (qy qn cy cn : ℚ) : PairPosition :=
  updateCache { market_id := mid, qty_yes := qy, qty_no := qn,
                cost_yes := cy, cost_no := cn }

/-- `PairPosition.avg_yes` property (returns the cached value). -/
def PairPosition.avg_yes (p : PairPosition) : ℚ := p.cached_avg_yes

/-- `PairPosition.avg_no` property (returns the cached value). -/
def PairPosition.avg_no (p : PairPosition) : ℚ := p.cached_avg_no

/-- `PairPosition.pair_cost` property (returns the cached value). -/
def PairPosition.pair_cost (p : PairPosition) : ℚ := p.cached_pair_cost

/-- `PairPosition.total_cost` property. -/
def PairPosition.total_cost (p : PairPosition) : ℚ := p.cost_yes + p.cost_no

/-- `PairPosition.min_qty` property. -/
def PairPosition.min_qty (p : PairPosition) : ℚ := min p.qty_yes p.qty_no

/-- `PairPosition.locked_profit` property. -/
def PairPosition.locked_profit (p : PairPosition) : ℚ := p.min_qty - p.total_cost

/-- `PairPosition.is_locked` property (returns the cached value). -/
def PairPosition.is_locked (p : PairPosition) : Bool := p.cached_is_locked

/-- `PairPosition.add_yes`: accumulate a YES buy, then refresh the cache. -/
def PairPosition.add_yes (p : PairPosition) (price qty : ℚ) : PairPosition :=
  updateCache { p with
    qty_yes := p.qty_yes + qty
    cost_yes := p.cost_yes + price * qty
    trades_yes := p.trades_yes + 1 }

/-- `PairPosition.add_no`: accumulate a NO buy, then refresh the cache. -/
def PairPosition.add_no (p : PairPosition) (price qty : ℚ) : PairPosition :=
  updateCache { p with
    qty_no := p.qty_no + qty
    cost_no := p.cost_no + price * qty
    trades_no := p.trades_no + 1 }

/-- `PairPosition.simulate_buy_yes_fast`. -/
def PairPosition.simulate_buy_yes_fast (p : PairPosition) (price qty : ℚ) : ℚ :=
  let newAvgYes := (p.cost_yes + price * qty) / (p.qty_yes + qty)
  if p.qty_no = 0 then 1 else newAvgYes + p.cached_avg_no

/-- `PairPosition.simulate_buy_no_fast`. -/
def PairPosition.simulate_buy_no_fast (p : PairPosition) (price qty : ℚ) : ℚ :=
  let newAvgNo := (p.cost_no + price * qty) / (p.qty_no + qty)
  if p.qty_yes = 0 then 1 else p.cached_avg_yes + newAvgNo

/-- One mutation of a `PairPosition`: an `add_yes` or `add_no` call. -/
inductive PosOp where
  | addYes (price qty : ℚ)
  | addNo (price qty : ℚ)
deriving Repr, DecidableEq

/-- An op with positive price and quantity. -/
def PosOp.positive : PosOp → Prop
  | .addYes price qty => 0 < price ∧ 0 < qty
  | .addNo price qty => 0 < price ∧ 0 < qty

instance : DecidablePred PosOp.positive := by
  intro op
  cases op <;> simp only [PosOp.positive] <;> infer_instance

/-- Apply one mutation. -/
def applyOp (p : PairPosition) : PosOp → PairPosition
  | .addYes price qty => p.add_yes price qty
  | .addNo price qty => p.add_no price qty

/-- Apply a finite sequence of mutations in order. -/
def applyOps (p : PairPosition) (ops : List PosOp) : PairPosition :=
  ops.foldl applyOp p

lemma updateCache_qty_yes (p : PairPosition) : (updateCache p).qty_yes = p.qty_yes := rfl

lemma updateCache_qty_no (p : PairPosition) : (updateCache p).qty_no = p.qty_no := rfl

lemma updateCache_cost_yes (p : PairPosition) : (updateCache p).cost_yes = p.cost_yes := rfl

lemma updateCache_cost_no (p : PairPosition) : (updateCache p).cost_no = p.cost_no := rfl

/-- The cache of a position agrees with the recomputation from its raw fields. -/
def cacheConsistent (p : PairPosition) : Prop :=
  p.cached_avg_yes = (if 0 < p.qty_yes then p.cost_yes / p.qty_yes else 0) ∧
  p.cached_avg_no = (if 0 < p.qty_no then p.cost_no / p.qty_no else 0) ∧
  p.cached_pair_cost =
    (if 0 < p.qty_yes ∧ 0 < p.qty_no then p.cached_avg_yes + p.cached_avg_no else 1) ∧
  p.cached_is_locked = decide (0 < min p.qty_yes p.qty_no - (p.cost_yes + p.cost_no))

lemma updateCache_consistent (p : PairPosition) : cacheConsistent (updateCache p) := by
  unfold cacheConsistent updateCache
  refine ⟨rfl, rfl, ?_, rfl⟩
  rfl

lemma applyOp_consistent (p : PairPosition) (op : PosOp) : cacheConsistent (applyOp p op) := by
  cases op <;> exact updateCache_consistent _

/-- Quantities are non-decreasing under ops with positive quantity, so they stay
non-negative. -/
lemma applyOps_qty_nonneg (p : PairPosition) (ops : List PosOp)
    (hops : ∀ op ∈ ops, op.positive)
    (hy : 0 ≤ p.qty_yes) (hn : 0 ≤ p.qty_no) :
    0 ≤ (applyOps p ops).qty_yes ∧ 0 ≤ (applyOps p ops).qty_no := by
  induction ops generalizing p with
  | nil => exact ⟨hy, hn⟩
  | cons op rest ih =>
    have hop := hops op (List.mem_cons_self op rest)
    have hrest : ∀ o ∈ rest, o.positive := fun o ho => hops o (List.mem_cons_of_mem op ho)
    cases op with
    | addYes price qty =>
      refine ih _ hrest ?_ ?_
      · simp only [applyOp, PairPosition.add_yes, updateCache_qty_yes]
        exact add_nonneg hy (le_of_lt hop.2)
      · simpa [applyOp, PairPosition.add_yes, updateCache] using hn
    | addNo price qty =>
      refine ih _ hrest ?_ ?_
      · simpa [applyOp, PairPosition.add_no, updateCache] using hy
      · simp only [applyOp, PairPosition.add_no, updateCache_qty_no]
        exact add_nonneg hn (le_of_lt hop.2)

lemma applyOps_consistent (p : PairPosition) (ops : List PosOp)
    (hcons : cacheConsistent p) : cacheConsistent (applyOps p ops) := by
  induction ops generalizing p with
  | nil => exact hcons
  | cons op rest ih => exact ih _ (applyOp_consistent p op)

/-- C1.  Starting from a freshly constructed position with non-negative raw
fields, after any finite sequence of `add_yes`/`add_no` calls with positive
prices and quantities, the cached properties agree with their defining
formulas: `avg_yes = cost_yes / qty_yes` (0 when `qty_yes = 0`), `avg_no`
analogously, `pair_cost = avg_yes + avg_no` when both quantities are positive
and 1 otherwise, and `is_locked` iff `min qty_yes qty_no > total_cost`. -/
theorem pairPosition_cache_invariant (mid : String) (qy qn cy cn : ℚ)
    (hqy : 0 ≤ qy) (hqn : 0 ≤ qn) (ops : List PosOp)
    (hops : ∀ op ∈ ops, op.positive) :
    (applyOps (mkPairPosition mid qy qn cy cn) ops).avg_yes =
      (if (applyOps (mkPairPosition mid qy qn cy cn) ops).qty_yes = 0 then 0
       else (applyOps (mkPairPosition mid qy qn cy cn) ops).cost_yes /
            (applyOps (mkPairPosition mid qy qn cy cn) ops).qty_yes) ∧
    (applyOps (mkPairPosition mid qy qn cy cn) ops).avg_no =
      (if (applyOps (mkPairPosition mid qy qn cy cn) ops).qty_no = 0 then 0
       else (applyOps (mkPairPosition mid qy qn cy cn) ops).cost_no /
            (applyOps (mkPairPosition mid qy qn cy cn) ops).qty_no) ∧
    (applyOps (mkPairPosition mid qy qn cy cn) ops).pair_cost =
      (if 0 < (applyOps (mkPairPosition mid qy qn cy cn) ops).qty_yes ∧
          0 < (applyOps (mkPairPosition mid qy qn cy cn) ops).qty_no then
        (applyOps (mkPairPosition mid qy qn cy cn) ops).avg_yes +
        (applyOps (mkPairPosition mid qy qn cy cn) ops).avg_no
       else 1) ∧
    ((applyOps (mkPairPosition mid qy qn cy cn) ops).is_locked = true ↔
      (applyOps (mkPairPosition mid qy qn cy cn) ops).total_cost <
      min (applyOps (mkPairPosition mid qy qn cy cn) ops).qty_yes
          (applyOps (mkPairPosition mid qy qn cy cn) ops).qty_no) := by
  set p := applyOps (mkPairPosition mid qy qn cy cn) ops with hp
  have hcons : cacheConsistent p := by
    refine applyOps_consistent _ _ (updateCache_consistent _)
  have hqnn : 0 ≤ p.qty_yes ∧ 0 ≤ p.qty_no := by
    refine applyOps_qty_nonneg _ _ hops ?_ ?_ <;>
      simp [mkPairPosition, updateCache_qty_yes, updateCache_qty_no, hqy, hqn]
  obtain ⟨h1, h2, h3, h4⟩ := hcons
  refine ⟨?_, ?_, ?_, ?_⟩
  · rw [PairPosition.avg_yes, h1]
    rcases eq_or_lt_of_le hqnn.1 with h | h
    · simp [← h]
    · simp [h, ne_of_gt h]
  · rw [PairPosition.avg_no, h2]
    rcases eq_or_lt_of_le hqnn.2 with h | h
    · simp [← h]
    · simp [h, ne_of_gt h]
  · rw [PairPosition.pair_cost, h3]
    rfl
  · rw [PairPosition.is_locked, h4, PairPosition.total_cost]
    simp [sub_pos]

/-- Concrete instantiation of `pairPosition_cache_invariant`. -/
theorem pairPosition_cache_invariant_witness :
    ((0:ℚ) ≤ 0 ∧ ∀ op ∈ [PosOp.addYes (9/20) 10, PosOp.addNo (12/25) 10], op.positive) ∧
    ((applyOps (mkPairPosition "m" 0 0 0 0) [PosOp.addYes (9/20) 10, PosOp.addNo (12/25) 10]).avg_yes =
      (if (applyOps (mkPairPosition "m" 0 0 0 0) [PosOp.addYes (9/20) 10, PosOp.addNo (12/25) 10]).qty_yes = 0 then 0
       else (applyOps (mkPairPosition "m" 0 0 0 0) [PosOp.addYes (9/20) 10, PosOp.addNo (12/25) 10]).cost_yes /
            (applyOps (mkPairPosition "m" 0 0 0 0) [PosOp.addYes (9/20) 10, PosOp.addNo (12/25) 10]).qty_yes) ∧
    (applyOps (mkPairPosition "m" 0 0 0 0) [PosOp.addYes (9/20) 10, PosOp.addNo (12/25) 10]).avg_no =
      (if (applyOps (mkPairPosition "m" 0 0 0 0) [PosOp.addYes (9/20) 10, PosOp.addNo (12/25) 10]).qty_no = 0 then 0
       else (applyOps (mkPairPosition "m" 0 0 0 0) [PosOp.addYes (9/20) 10, PosOp.addNo (12/25) 10]).cost_no /
            (applyOps (mkPairPosition "m" 0 0 0 0) [PosOp.addYes (9/20) 10, PosOp.addNo (12/25) 10]).qty_no) ∧
    (applyOps (mkPairPosition "m" 0 0 0 0) [PosOp.addYes (9/20) 10, PosOp.addNo (12/25) 10]).pair_cost =
      (if 0 < (applyOps (mkPairPosition "m" 0 0 0 0) [PosOp.addYes (9/20) 10, PosOp.addNo (12/25) 10]).qty_yes ∧
          0 < (applyOps (mkPairPosition "m" 0 0 0 0) [PosOp.addYes (9/20) 10, PosOp.addNo (12/25) 10]).qty_no then
        (applyOps (mkPairPosition "m" 0 0 0 0) [PosOp.addYes (9/20) 10, PosOp.addNo (12/25) 10]).avg_yes +
        (applyOps (mkPairPosition "m" 0 0 0 0) [PosOp.addYes (9/20) 10, PosOp.addNo (12/25) 10]).avg_no
       else 1) ∧
    ((applyOps (mkPairPosition "m" 0 0 0 0) [PosOp.addYes (9/20) 10, PosOp.addNo (12/25) 10]).is_locked = true ↔
      (applyOps (mkPairPosition "m" 0 0 0 0) [PosOp.addYes (9/20) 10, PosOp.addNo (12/25) 10]).total_cost <
      min (applyOps (mkPairPosition "m" 0 0 0 0) [PosOp.addYes (9/20) 10, PosOp.addNo (12/25) 10]).qty_yes
          (applyOps (mkPairPosition "m" 0 0 0 0) [PosOp.addYes (9/20) 10, PosOp.addNo (12/25) 10]).qty_no)) :=
  ⟨⟨le_rfl, by norm_num [PosOp.positive]⟩,
   pairPosition_cache_invariant "m" 0 0 0 0 le_rfl le_rfl
     [PosOp.addYes (9/20) 10, PosOp.addNo (12/25) 10] (by norm_num [PosOp.positive])⟩

/-! ## Gabagool: engine state and decision rule (src/core/gabagool.py) -/

/-- Embeds `GabagoolConfig`.  Field defaults follow the source.  Note the
source dataclass has no `first_buy_threshold` field; the 0.60 bootstrap
threshold is hard-coded inside `should_buy_yes` / `should_buy_no`. -/
structure GabagoolConfig where
  max_pair_cost : ℚ := 98/100
  min_improvement : ℚ := 5/1000
  order_size_usd : ℚ := 25
  max_position_usd : ℚ := 500
  balance_threshold : ℚ := 2/10
  refresh_interval : ℚ := 1
deriving Repr, DecidableEq

/-- The mutable state of `GabagoolEngine` read or written by the decision
queries: the `market_id → PairPosition` mapping (as an association list in
insertion order, matching dict semantics) and the active/locked id sets. -/
structure EngineState where
  config : GabagoolConfig
  positions : List (String × PairPosition) := []
  active_ids : List String := []
  locked_ids : List String := []
deriving Repr, DecidableEq

/-- Dictionary lookup on the association list. -/
def lookupPos (l : List (String × PairPosition)) (mid : String) : Option PairPosition :=
  (l.find? (fun kv => kv.1 == mid)).map Prod.snd

/-- Set insertion for the id sets. -/
def addToSet (s : List String) (x : String) : List String :=
  if x ∈ s then s else x :: s

/-- The position `get_or_create_position` builds for an unknown market:
all raw fields zero, cache initialised by `__post_init__`. -/
def freshPosition (mid : String) : PairPosition := mkPairPosition mid 0 0 0 0

/-- `GabagoolEngine.get_or_create_position`: return the existing position, or
create a zero position, register it and mark the market active. -/
def getOrCreatePosition (s : EngineState) (mid : String) : PairPosition × EngineState :=
  match lookupPos s.positions mid with
  | some p => (p, s)
  | none =>
    let p := freshPosition mid
    (p, { s with
          positions := s.positions ++ [(mid, p)]
          active_ids := addToSet s.active_ids mid })

/-- The body of `GabagoolEngine.should_buy_yes` after the locked-set fast path
and position creation: position cap, 0.60 bootstrap threshold for a first YES
buy, then the inline new-pair-cost and improvement checks. -/
def shouldBuyYesDecision (pos : PairPosition) (cfg : GabagoolConfig)
    (price qty : ℚ) : Bool :=
  if pos.total_cost + price * qty > cfg.max_position_usd then false
  else if pos.qty_yes = 0 then decide (price < 3/5)
  else
    let newAvgYes := (pos.cost_yes + price * qty) / (pos.qty_yes + qty)
    let newPairCost := if pos.qty_no = 0 then (1 : ℚ) else newAvgYes + pos.cached_avg_no
    if newPairCost ≥ cfg.max_pair_cost then false
    else if 0 < pos.qty_no ∧ pos.cached_pair_cost - newPairCost < cfg.min_improvement then
      false
    else true

/-- The body of `GabagoolEngine.should_buy_no`, symmetric to the YES side. -/
def shouldBuyNoDecision (pos : PairPosition) (cfg : GabagoolConfig)
    (price qty : ℚ) : Bool :=
  if pos.total_cost + price * qty > cfg.max_position_usd then false
  else if pos.qty_no = 0 then decide (price < 3/5)
  else
    let newAvgNo := (pos.cost_no + price * qty) / (pos.qty_no + qty)
    let newPairCost := if pos.qty_yes = 0 then (1 : ℚ) else pos.cached_avg_yes + newAvgNo
    if newPairCost ≥ cfg.max_pair_cost then false
    else if 0 < pos.qty_yes ∧ pos.cached_pair_cost - newPairCost < cfg.min_improvement then
      false
    else true

/-- `GabagoolEngine.should_buy_yes`: locked-set fast path, then create the
position if missing and run the decision body.  Returns the answer and the
possibly-extended engine state. -/
def shouldBuyYes (s : EngineState) (mid : String) (price qty : ℚ) :
    Bool × EngineState :=
  if mid ∈ s.locked_ids then (false, s)
  else
    let pr := getOrCreatePosition s mid
    (shouldBuyYesDecision pr.1 s.config price qty, pr.2)

/-- `GabagoolEngine.should_buy_no`. -/
def shouldBuyNo (s : EngineState) (mid : String) (price qty : ℚ) :
    Bool × EngineState :=
  if mid ∈ s.locked_ids then (false, s)
  else
    let pr := getOrCreatePosition s mid
    (shouldBuyNoDecision pr.1 s.config price qty, pr.2)

lemma getOrCreatePosition_fst (s : EngineState) (mid : String) :
    (getOrCreatePosition s mid).1 =
      (lookupPos s.positions mid).getD (freshPosition mid) := by
  unfold getOrCreatePosition
  cases lookupPos s.positions mid <;> rfl

lemma shouldBuyYesDecision_iff (pos : PairPosition) (cfg : GabagoolConfig)
    (price qty : ℚ) :
    shouldBuyYesDecision pos cfg price qty = true ↔
      (pos.total_cost + price * qty ≤ cfg.max_position_usd ∧
       (if pos.qty_yes = 0 then price < 3/5
        else pos.simulate_buy_yes_fast price qty < cfg.max_pair_cost ∧
          (0 < pos.qty_no →
            cfg.min_improvement ≤ pos.pair_cost - pos.simulate_buy_yes_fast price qty))) := by
  unfold shouldBuyYesDecision PairPosition.simulate_buy_yes_fast PairPosition.pair_cost
  split_ifs with h1 h2 h3 h4 <;> simp_all [not_lt, not_le]
  intro _
  rw [or_iff_not_imp_left]
  simp [not_le]

lemma shouldBuyNoDecision_iff (pos : PairPosition) (cfg : GabagoolConfig)
    (price qty : ℚ) :
    shouldBuyNoDecision pos cfg price qty = true ↔
      (pos.total_cost + price * qty ≤ cfg.max_position_usd ∧
       (if pos.qty_no = 0 then price < 3/5
        else pos.simulate_buy_no_fast price qty < cfg.max_pair_cost ∧
          (0 < pos.qty_yes →
            cfg.min_improvement ≤ pos.pair_cost - pos.simulate_buy_no_fast price qty))) := by
  unfold shouldBuyNoDecision PairPosition.simulate_buy_no_fast PairPosition.pair_cost
  split_ifs with h1 h2 h3 h4 <;> simp_all [not_lt, not_le]
  intro _
  rw [or_iff_not_imp_left]
  simp [not_le]

/-- C2.  `should_buy_yes(m, p, q)` returns true exactly when the market is not
locked, the position cap is respected, and either it is the first YES buy and
`p < 0.60`, or the simulated new pair cost is strictly below `max_pair_cost`
and, when the opposite side is held, the improvement is at least
`min_improvement`; symmetrically for `should_buy_no`. -/
theorem gabagool_should_buy_rule (s : EngineState) (mid : String) (price qty : ℚ) :
    ((shouldBuyYes s mid price qty).1 = true ↔
      (mid ∉ s.locked_ids ∧
       ((lookupPos s.positions mid).getD (freshPosition mid)).total_cost + price * qty ≤
         s.config.max_position_usd ∧
       (if ((lookupPos s.positions mid).getD (freshPosition mid)).qty_yes = 0 then
          price < 3/5
        else
          ((lookupPos s.positions mid).getD (freshPosition mid)).simulate_buy_yes_fast price qty <
            s.config.max_pair_cost ∧
          (0 < ((lookupPos s.positions mid).getD (freshPosition mid)).qty_no →
            s.config.min_improvement ≤
              ((lookupPos s.positions mid).getD (freshPosition mid)).pair_cost -
              ((lookupPos s.positions mid).getD (freshPosition mid)).simulate_buy_yes_fast price qty)))) ∧
    ((shouldBuyNo s mid price qty).1 = true ↔
      (mid ∉ s.locked_ids ∧
       ((lookupPos s.positions mid).getD (freshPosition mid)).total_cost + price * qty ≤
         s.config.max_position_usd ∧
       (if ((lookupPos s.positions mid).getD (freshPosition mid)).qty_no = 0 then
          price < 3/5
        else
          ((lookupPos s.positions mid).getD (freshPosition mid)).simulate_buy_no_fast price qty <
            s.config.max_pair_cost ∧
          (0 < ((lookupPos s.positions mid).getD (freshPosition mid)).qty_yes →
            s.config.min_improvement ≤
              ((lookupPos s.positions mid).getD (freshPosition mid)).pair_cost -
              ((lookupPos s.positions mid).getD (freshPosition mid)).simulate_buy_no_fast price qty)))) := by
  constructor
  · unfold shouldBuyYes
    by_cases hl : mid ∈ s.locked_ids
    · simp [hl]
    · simp only [if_neg hl, getOrCreatePosition_fst]
      rw [shouldBuyYesDecision_iff]
      simp [hl]
  · unfold shouldBuyNo
    by_cases hl : mid ∈ s.locked_ids
    · simp [hl]
    · simp only [if_neg hl, getOrCreatePosition_fst]
      rw [shouldBuyNoDecision_iff]
      simp [hl]

lemma lookupPos_append_self (l : List (String × PairPosition)) (mid : String)
    (p : PairPosition) (h : lookupPos l mid = none) :
    lookupPos (l ++ [(mid, p)]) mid = some p := by
  induction l with
  | nil => simp [lookupPos]
  | cons kv rest ih =>
    unfold lookupPos at h ⊢
    by_cases hk : kv.1 == mid
    · simp [List.find?, hk] at h
    · simp only [List.cons_append, List.find?, hk]
      exact ih (by simpa [lookupPos, List.find?, hk] using h)

lemma lookupPos_append_other (l : List (String × PairPosition)) (mid m : String)
    (p : PairPosition) (h : m ≠ mid) :
    lookupPos (l ++ [(mid, p)]) m = lookupPos l m := by
  have hmm : (mid == m) = false := by
    simp [Ne.symm h]
  induction l with
  | nil => simp [lookupPos, List.find?, hmm]
  | cons kv rest ih =>
    unfold lookupPos at ih ⊢
    by_cases hk : kv.1 == m
    · simp [List.find?, hk]
    · simp only [List.cons_append, List.find?, hk]
      exact ih

lemma mem_addToSet (s : List String) (x : String) : x ∈ addToSet s x := by
  unfold addToSet
  by_cases h : x ∈ s <;> simp [h]

/-- C10.  For a market the engine does not yet know, each decision query
creates a zero-quantity position for it and adds it to the active set,
whatever the returned answer, and every other market's position entry is
untouched. -/
theorem should_buy_creates_position (s : EngineState) (mid : String) (price qty : ℚ)
    (hpos : lookupPos s.positions mid = none) (hl : mid ∉ s.locked_ids) :
    (freshPosition mid).qty_yes = 0 ∧ (freshPosition mid).qty_no = 0 ∧
    (lookupPos ((shouldBuyYes s mid price qty).2).positions mid = some (freshPosition mid) ∧
     mid ∈ ((shouldBuyYes s mid price qty).2).active_ids ∧
     ∀ m : String, m ≠ mid →
       lookupPos ((shouldBuyYes s mid price qty).2).positions m = lookupPos s.positions m) ∧
    (lookupPos ((shouldBuyNo s mid price qty).2).positions mid = some (freshPosition mid) ∧
     mid ∈ ((shouldBuyNo s mid price qty).2).active_ids ∧
     ∀ m : String, m ≠ mid →
       lookupPos ((shouldBuyNo s mid price qty).2).positions m = lookupPos s.positions m) := by
  have hstate : ∀ f : PairPosition → GabagoolConfig → ℚ → ℚ → Bool,
      (if mid ∈ s.locked_ids then ((false : Bool), s)
       else
         let pr := getOrCreatePosition s mid
         (f pr.1 s.config price qty, pr.2)).2 =
      { s with positions := s.positions ++ [(mid, freshPosition mid)]
               active_ids := addToSet s.active_ids mid } := by
    intro f
    rw [if_neg hl]
    simp only [getOrCreatePosition, hpos]
  refine ⟨rfl, rfl, ?_, ?_⟩ <;>
  · first
      | rw [show (shouldBuyYes s mid price qty).2 =
              { s with positions := s.positions ++ [(mid, freshPosition mid)]
                       active_ids := addToSet s.active_ids mid } from hstate _]
      | rw [show (shouldBuyNo s mid price qty).2 =
              { s with positions := s.positions ++ [(mid, freshPosition mid)]
                       active_ids := addToSet s.active_ids mid } from hstate _]
    exact ⟨lookupPos_append_self _ _ _ hpos, mem_addToSet _ _,
           fun m hm => lookupPos_append_other _ _ _ _ hm⟩

/-- Concrete instantiation of `should_buy_creates_position` on the empty
engine state. -/
theorem should_buy_creates_position_witness :
    (freshPosition "m").qty_yes = 0 ∧ (freshPosition "m").qty_no = 0 ∧
    (lookupPos ((shouldBuyYes { config := {} } "m" (1/2) 10).2).positions "m" =
       some (freshPosition "m") ∧
     "m" ∈ ((shouldBuyYes { config := {} } "m" (1/2) 10).2).active_ids ∧
     ∀ m : String, m ≠ "m" →
       lookupPos ((shouldBuyYes { config := {} } "m" (1/2) 10).2).positions m =
         lookupPos (EngineState.positions { config := {} }) m) ∧
    (lookupPos ((shouldBuyNo { config := {} } "m" (1/2) 10).2).positions "m" =
       some (freshPosition "m") ∧
     "m" ∈ ((shouldBuyNo { config := {} } "m" (1/2) 10).2).active_ids ∧
     ∀ m : String, m ≠ "m" →
       lookupPos ((shouldBuyNo { config := {} } "m" (1/2) 10).2).positions m =
         lookupPos (EngineState.positions { config := {} }) m) :=
  should_buy_creates_position { config := {} } "m" (1/2) 10 rfl (by simp)


/-! ## Scanner: MarketData (src/core/scanner.py) -/

/-- Embeds the `Market` fields the core reads: identity, last outright YES
price, volume and liquidity metadata.  Question text, token ids, `end_date`
and the `active` flag are not read by any claim. -/
structure Market where
  id : String
  price_yes : ℚ := 0
  volume : ℚ := 0
  liquidity : ℚ := 0
deriving Repr, DecidableEq

/-- Embeds `MarketData`: the market plus the latest top-of-book quotes and the
derived spreads.  The raw `orderbook_yes`/`orderbook_no` dicts and the
`last_update` timestamp are omitted. -/
structure MarketData where
  market : Market
  best_bid_yes : Option ℚ := none
  best_ask_yes : Option ℚ := none
  best_bid_no : Option ℚ := none
  best_ask_no : Option ℚ := none
  spread_yes : Option ℚ := none
  spread_no : Option ℚ := none
deriving Repr, DecidableEq

/-- `MarketData.is_valid`: YES-side best bid, best ask and spread all present
(identity tests against `None`, not truthiness). -/
def MarketData.is_valid (md : MarketData) : Bool :=
  md.best_bid_yes.isSome && md.best_ask_yes.isSome && md.spread_yes.isSome

/-- `MarketData.effective_spread`: mean of the spreads that are present,
0 when none is. -/
def MarketData.effective_spread (md : MarketData) : ℚ :=
  match md.spread_yes, md.spread_no with
  | some a, some b => (a + b) / 2
  | some a, none => a
  | none, some b => b
  | none, none => 0

/-! ## Analyzer (src/core/analyzer.py) -/

/-- Embeds `TradingParams` from src/config/trading_params.py with the source
defaults. -/
structure TradingParams where
  min_spread : ℚ := 6/100
  max_spread : ℚ := 25/100
  min_volume_usd : ℚ := 20000
  min_depth_usd : ℚ := 50
  max_duration_hours : ℤ := 24
  capital_per_trade : ℚ := 50
  max_open_positions : ℤ := 5
  max_total_exposure : ℚ := 500
  order_offset : ℚ := 1/100
  position_timeout_seconds : ℤ := 0
  min_time_between_trades : ℤ := 5
  target_assets : Option (List String) := none
  auto_trading_enabled : Bool := false
  require_confirmation : Bool := true
deriving Repr, DecidableEq

/-- `OpportunityAction`. -/
inductive OpportunityAction where
  | trade
  | watch
  | skip
deriving Repr, DecidableEq

/-- Embeds `Opportunity`.  The generated id string, question text, token ids,
score-breakdown dict and timestamps are omitted; every numeric field the
claims read is kept. -/
structure Opportunity where
  market_id : String
  best_bid_yes : ℚ
  best_ask_yes : ℚ
  best_bid_no : ℚ
  best_ask_no : ℚ
  spread_yes : ℚ
  spread_no : ℚ
  recommended_price_yes : ℚ
  recommended_price_no : ℚ
  volume : ℚ
  liquidity : ℚ
  score : ℕ
  action : OpportunityAction
deriving Repr, DecidableEq

/-- `Opportunity.effective_spread` property. -/
def Opportunity.effective_spread (o : Opportunity) : ℚ :=
  (o.spread_yes + o.spread_no) / 2

/-- Clipping of a recommended price into the valid band, as written in the
source: `max(0.01, min(0.99, x))`. -/
def clip01 (x : ℚ) : ℚ := max (1/100) (min (99/100) x)

/-- `OpportunityAnalyzer._calculate_score`: the four 5/10/15/20/25 point axes
and the 1–5 score from the total percentage (`max_points` is 100). -/
def calculateScore (effective_spread volume liquidity price_yes : ℚ) : ℕ :=
  let spreadPoints : ℕ :=
    if effective_spread ≥ 1/10 then 25
    else if effective_spread ≥ 8/100 then 20
    else if effective_spread ≥ 6/100 then 15
    else if effective_spread ≥ 4/100 then 10
    else 5
  let volumePoints : ℕ :=
    if volume ≥ 100000 then 25
    else if volume ≥ 50000 then 20
    else if volume ≥ 20000 then 15
    else if volume ≥ 5000 then 10
    else 5
  let liquidityPoints : ℕ :=
    if liquidity ≥ 50000 then 25
    else if liquidity ≥ 20000 then 20
    else if liquidity ≥ 10000 then 15
    else if liquidity ≥ 5000 then 10
    else 5
  let balancePoints : ℕ :=
    if |price_yes - 1/2| ≤ 1/10 then 25
    else if |price_yes - 1/2| ≤ 2/10 then 20
    else if |price_yes - 1/2| ≤ 3/10 then 15
    else if |price_yes - 1/2| ≤ 4/10 then 10
    else 5
  let totalPoints := spreadPoints + volumePoints + liquidityPoints + balancePoints
  let percentage : ℚ := ((totalPoints : ℚ) / 100) * 100
  if percentage ≥ 80 then 5
  else if percentage ≥ 60 then 4
  else if percentage ≥ 40 then 3
  else if percentage ≥ 20 then 2
  else 1

/-- `OpportunityAnalyzer.analyze_market`: validity and spread/volume filters,
recommended prices off-best clipped to the valid band, score and action.
`x or 0` on an optional float is `Option.getD 0` (both map `None` and `0.0`
to 0). -/
def analyzeMarket (params : TradingParams) (md : MarketData) : Option Opportunity :=
  if md.is_valid = false then none
  else
    let spreadY := md.spread_yes.getD 0
    let spreadN := md.spread_no.getD 0
    let eff := (spreadY + spreadN) / 2
    if eff < params.min_spread then none
    else if eff > params.max_spread then none
    else if md.market.volume < params.min_volume_usd then none
    else
      let recYes := clip01 (md.best_bid_yes.getD 0 + params.order_offset)
      let recNo := clip01 (md.best_bid_no.getD 0 + params.order_offset)
      let score := calculateScore eff md.market.volume md.market.liquidity md.market.price_yes
      let action : OpportunityAction :=
        if score ≥ 4 then .trade else if score ≥ 3 then .watch else .skip
      some
        { market_id := md.market.id
          best_bid_yes := md.best_bid_yes.getD 0
          best_ask_yes := md.best_ask_yes.getD 0
          best_bid_no := md.best_bid_no.getD 0
          best_ask_no := md.best_ask_no.getD 0
          spread_yes := spreadY
          spread_no := spreadN
          recommended_price_yes := recYes
          recommended_price_no := recNo
          volume := md.market.volume
          liquidity := md.market.liquidity
          score := score
          action := action }

/-- C4.  Whenever the analyzer emits an opportunity, the input was valid, its
effective spread lies in `[min_spread, max_spread]`, its volume meets
`min_volume_usd`, and each recommended price is the corresponding best bid
plus `order_offset` clipped into `[0.01, 0.99]`. -/
theorem analyzer_emits_filtered (params : TradingParams) (md : MarketData)
    (o : Opportunity) (h : analyzeMarket params md = some o) :
    md.is_valid = true ∧
    params.min_spread ≤ o.effective_spread ∧
    o.effective_spread ≤ params.max_spread ∧
    params.min_volume_usd ≤ o.volume ∧
    o.recommended_price_yes = clip01 (o.best_bid_yes + params.order_offset) ∧
    o.recommended_price_no = clip01 (o.best_bid_no + params.order_offset) := by
  unfold analyzeMarket at h
  by_cases h1 : md.is_valid = false
  · rw [if_pos h1] at h
    exact Option.noConfusion h
  · simp only [if_neg h1] at h
    by_cases h2 : (md.spread_yes.getD 0 + md.spread_no.getD 0) / 2 < params.min_spread
    · rw [if_pos h2] at h
      exact Option.noConfusion h
    · rw [if_neg h2] at h
      by_cases h3 : (md.spread_yes.getD 0 + md.spread_no.getD 0) / 2 > params.max_spread
      · rw [if_pos h3] at h
        exact Option.noConfusion h
      · rw [if_neg h3] at h
        by_cases h4 : md.market.volume < params.min_volume_usd
        · rw [if_pos h4] at h
          exact Option.noConfusion h
        · rw [if_neg h4] at h
          simp only [Option.some.injEq] at h
          subst h
          refine ⟨?_, ?_, ?_, ?_, rfl, rfl⟩
          · cases hv : md.is_valid
            · exact absurd hv h1
            · rfl
          · simpa [Opportunity.effective_spread] using not_lt.mp h2
          · simpa [Opportunity.effective_spread] using not_lt.mp h3
          · exact not_lt.mp h4

/-- Input for the concrete analyzer run. -/
def analyzerMd0 : MarketData :=
  { market := { id := "m", price_yes := 11/20, volume := 30000, liquidity := 12000 }
    best_bid_yes := some (9/20)
    best_ask_yes := some (13/25)
    best_bid_no := some (12/25)
    best_ask_no := some (11/20)
    spread_yes := some (7/100)
    spread_no := some (7/100) }

/-- Output of the concrete analyzer run. -/
def analyzerOpp0 : Opportunity :=
  { market_id := "m"
    best_bid_yes := 9/20
    best_ask_yes := 13/25
    best_bid_no := 12/25
    best_ask_no := 11/20
    spread_yes := 7/100
    spread_no := 7/100
    recommended_price_yes := 23/50
    recommended_price_no := 49/100
    volume := 30000
    liquidity := 12000
    score := 4
    action := .trade }

lemma analyzerMd0_run : analyzeMarket {} analyzerMd0 = some analyzerOpp0 := by
  have habs : |(1:ℚ)/20| = 1/20 := abs_of_nonneg (by norm_num)
  norm_num [analyzeMarket, analyzerMd0, analyzerOpp0, MarketData.is_valid,
    calculateScore, clip01, habs]

/-- Concrete instantiation of `analyzer_emits_filtered`. -/
theorem analyzer_emits_filtered_witness :
    analyzeMarket {} analyzerMd0 = some analyzerOpp0 ∧
    (MarketData.is_valid analyzerMd0 = true ∧
     TradingParams.min_spread {} ≤ analyzerOpp0.effective_spread ∧
     analyzerOpp0.effective_spread ≤ TradingParams.max_spread {} ∧
     TradingParams.min_volume_usd {} ≤ analyzerOpp0.volume ∧
     analyzerOpp0.recommended_price_yes =
       clip01 (analyzerOpp0.best_bid_yes + TradingParams.order_offset {}) ∧
     analyzerOpp0.recommended_price_no =
       clip01 (analyzerOpp0.best_bid_no + TradingParams.order_offset {})) :=
  ⟨analyzerMd0_run, analyzer_emits_filtered {} analyzerMd0 analyzerOpp0 analyzerMd0_run⟩


/-! ## Scanner: orderbook updates (src/core/scanner.py) -/

/-- A fetched orderbook top: bids and asks as `(price, size)` levels,
best-first. -/
structure OrderBook where
  bids : List (ℚ × ℚ) := []
  asks : List (ℚ × ℚ) := []
deriving Repr, DecidableEq

/-- The spread assignment both update paths share: the spread is recomputed
only when the (possibly new) best bid and best ask are both truthy
(`if bid and ask:` in the source); otherwise the stored value is kept. -/
def spreadUpdate (bid ask old : Option ℚ) : Option ℚ :=
  if optTruthy bid && optTruthy ask then some (ask.getD 0 - bid.getD 0) else old

/-- The parsing half of `MarketScanner._fetch_single_orderbook`: each best
quote becomes the top level's price, or `None` when that side of the book is
empty; then the conditional spread recomputation for each token. -/
def applyRestOrderbooks (md : MarketData) (bookYes bookNo : OrderBook) : MarketData :=
  let bidYes := bookYes.bids.head?.map Prod.fst
  let askYes := bookYes.asks.head?.map Prod.fst
  let bidNo := bookNo.bids.head?.map Prod.fst
  let askNo := bookNo.asks.head?.map Prod.fst
  { md with
    best_bid_yes := bidYes
    best_ask_yes := askYes
    spread_yes := spreadUpdate bidYes askYes md.spread_yes
    best_bid_no := bidNo
    best_ask_no := askNo
    spread_no := spreadUpdate bidNo askNo md.spread_no }

/-- A market side. -/
inductive Side where
  | yes
  | no
deriving Repr, DecidableEq

/-- `MarketScanner._handle_book_update`: a WebSocket book update for one
token.  Each best quote is overwritten only when the update carries levels
for that side; the spread is recomputed only when both quotes are then
truthy.  The other token's fields are untouched. -/
def applyBookUpdate (md : MarketData) (side : Side) (bids asks : List (ℚ × ℚ)) :
    MarketData :=
  match side with
  | .yes =>
    let bid := match bids.head? with
      | some lvl => some lvl.1
      | none => md.best_bid_yes
    let ask := match asks.head? with
      | some lvl => some lvl.1
      | none => md.best_ask_yes
    { md with
      best_bid_yes := bid
      best_ask_yes := ask
      spread_yes := spreadUpdate bid ask md.spread_yes }
  | .no =>
    let bid := match bids.head? with
      | some lvl => some lvl.1
      | none => md.best_bid_no
    let ask := match asks.head? with
      | some lvl => some lvl.1
      | none => md.best_ask_no
    { md with
      best_bid_no := bid
      best_ask_no := ask
      spread_no := spreadUpdate bid ask md.spread_no }

/-- A market snapshot that has already seen one full refresh: both YES quotes
present, spread computed. -/
def staleMd0 : MarketData :=
  { market := { id := "m" }
    best_bid_yes := some (9/20)
    best_ask_yes := some (1/2)
    best_bid_no := some (12/25)
    best_ask_no := some (11/20)
    spread_yes := some (1/20)
    spread_no := some (7/100) }

/-- C8 counterexample.  A REST refresh whose YES book has no bids sets
`best_bid_yes` to `None` yet leaves `spread_yes` at its previous (non-`None`)
value: a missing best quote does not make the derived spread `None`. -/
theorem spread_not_cleared_counterexample :
    (applyRestOrderbooks staleMd0 { asks := [(1/2, 10)] }
        { bids := [(12/25, 5)], asks := [(11/20, 5)] }).best_bid_yes = none ∧
    (applyRestOrderbooks staleMd0 { asks := [(1/2, 10)] }
        { bids := [(12/25, 5)], asks := [(11/20, 5)] }).spread_yes = some (1/20) := by
  constructor <;> rfl

/-- The new best quote after a WS update: the update's top price when levels
arrived, else the previously stored quote. -/
def orKeep (new old : Option ℚ) : Option ℚ :=
  match new with
  | some v => some v
  | none => old

/-- C8 amended.  After either update path, each best quote is the new top
price (REST: `None` on an empty side; WS: previous value when the update has
no levels), and the spread is recomputed to `ask − bid` only when both best
quotes are then present and nonzero — otherwise it retains its previous
value. -/
theorem spread_update_characterization (md : MarketData)
    (bookYes bookNo : OrderBook) (bids asks : List (ℚ × ℚ)) :
    ((applyRestOrderbooks md bookYes bookNo).best_bid_yes =
        bookYes.bids.head?.map Prod.fst ∧
     (applyRestOrderbooks md bookYes bookNo).best_ask_yes =
        bookYes.asks.head?.map Prod.fst ∧
     (applyRestOrderbooks md bookYes bookNo).spread_yes =
       (if optTruthy (bookYes.bids.head?.map Prod.fst) &&
           optTruthy (bookYes.asks.head?.map Prod.fst) then
          some ((bookYes.asks.head?.map Prod.fst).getD 0 -
                (bookYes.bids.head?.map Prod.fst).getD 0)
        else md.spread_yes) ∧
     (applyRestOrderbooks md bookYes bookNo).spread_no =
       (if optTruthy (bookNo.bids.head?.map Prod.fst) &&
           optTruthy (bookNo.asks.head?.map Prod.fst) then
          some ((bookNo.asks.head?.map Prod.fst).getD 0 -
                (bookNo.bids.head?.map Prod.fst).getD 0)
        else md.spread_no)) ∧
    ((applyBookUpdate md .yes bids asks).best_bid_yes =
        orKeep (bids.head?.map Prod.fst) md.best_bid_yes ∧
     (applyBookUpdate md .yes bids asks).best_ask_yes =
        orKeep (asks.head?.map Prod.fst) md.best_ask_yes ∧
     (applyBookUpdate md .yes bids asks).spread_yes =
       (if optTruthy (orKeep (bids.head?.map Prod.fst) md.best_bid_yes) &&
           optTruthy (orKeep (asks.head?.map Prod.fst) md.best_ask_yes) then
          some ((orKeep (asks.head?.map Prod.fst) md.best_ask_yes).getD 0 -
                (orKeep (bids.head?.map Prod.fst) md.best_bid_yes).getD 0)
        else md.spread_yes) ∧
     (applyBookUpdate md .yes bids asks).spread_no = md.spread_no ∧
     (applyBookUpdate md .yes bids asks).best_bid_no = md.best_bid_no ∧
     (applyBookUpdate md .yes bids asks).best_ask_no = md.best_ask_no) ∧
    ((applyBookUpdate md .no bids asks).best_bid_no =
        orKeep (bids.head?.map Prod.fst) md.best_bid_no ∧
     (applyBookUpdate md .no bids asks).best_ask_no =
        orKeep (asks.head?.map Prod.fst) md.best_ask_no ∧
     (applyBookUpdate md .no bids asks).spread_no =
       (if optTruthy (orKeep (bids.head?.map Prod.fst) md.best_bid_no) &&
           optTruthy (orKeep (asks.head?.map Prod.fst) md.best_ask_no) then
          some ((orKeep (asks.head?.map Prod.fst) md.best_ask_no).getD 0 -
                (orKeep (bids.head?.map Prod.fst) md.best_bid_no).getD 0)
        else md.spread_no) ∧
     (applyBookUpdate md .no bids asks).spread_yes = md.spread_yes ∧
     (applyBookUpdate md .no bids asks).best_bid_yes = md.best_bid_yes ∧
     (applyBookUpdate md .no bids asks).best_ask_yes = md.best_ask_yes) := by
  refine ⟨⟨rfl, rfl, rfl, rfl⟩, ⟨?_, ?_, ?_, rfl, rfl, rfl⟩, ?_, ?_, ?_, rfl, rfl, rfl⟩ <;>
    cases hbids : bids.head? <;> cases hasks : asks.head? <;>
      simp [applyBookUpdate, spreadUpdate, orKeep, hbids, hasks]


/-! ## Auto-optimizer (src/core/auto_optimizer.py) -/

/-- Embeds `MarketConditions` with the source defaults (timestamp omitted). -/
structure MarketConditions where
  avg_spread : ℚ := 1/10
  avg_volume : ℚ := 20000
  avg_liquidity : ℚ := 10000
  volatility_score : ℚ := 50
  active_positions : ℕ := 0
  locked_positions : ℕ := 0
  avg_pair_cost : ℚ := 1
  ws_connected : Bool := false
deriving Repr, DecidableEq

/-- Embeds `OptimizedParams` with the source defaults. -/
structure OptimizedParams where
  max_pair_cost : ℚ := 98/100
  min_improvement : ℚ := 5/1000
  order_size_usd : ℚ := 25
  max_position_usd : ℚ := 500
  first_buy_threshold : ℚ := 55/100
  refresh_interval : ℚ := 1
deriving Repr, DecidableEq

/-- `AutoOptimizer._optimize_max_pair_cost`. -/
def optimizeMaxPairCost (c : MarketConditions) : ℚ :=
  let base : ℚ :=
    if c.avg_spread > 15/100 then 92/100
    else if c.avg_spread > 1/10 then 94/100
    else if c.avg_spread < 6/100 then 98/100
    else 95/100
  let base2 : ℚ :=
    if c.volatility_score > 70 then base - 2/100
    else if c.volatility_score < 30 then base + 1/100
    else base
  max (9/10) (min (99/100) base2)

/-- `AutoOptimizer._optimize_min_improvement`. -/
def optimizeMinImprovement (c : MarketConditions) : ℚ :=
  if c.active_positions = 0 then 0
  else if c.avg_pair_cost > 98/100 then 1/1000
  else if c.avg_pair_cost > 96/100 then 2/1000
  else if c.avg_pair_cost > 94/100 then 5/1000
  else 8/1000

/-- `AutoOptimizer._optimize_order_size`: liquidity bands, then the 1.5 boost
when the mean active pair cost is already below 0.96. -/
def optimizeOrderSize (c : MarketConditions) : ℚ :=
  let base : ℚ :=
    if c.avg_liquidity > 100000 then 75
    else if c.avg_liquidity > 50000 then 50
    else if c.avg_liquidity > 20000 then 35
    else if c.avg_liquidity < 10000 then 15
    else 25
  let base2 : ℚ :=
    if c.avg_pair_cost < 96/100 ∧ 0 < c.active_positions then base * (3/2) else base
  max 10 (min 100 base2)

/-- `AutoOptimizer._optimize_max_position`. -/
def optimizeMaxPosition (c : MarketConditions) : ℚ :=
  let base : ℚ :=
    if c.avg_liquidity > 100000 then 1000
    else if c.avg_liquidity > 50000 then 750
    else if c.avg_liquidity < 20000 then 300
    else 500
  let base2 : ℚ := if 5 < c.active_positions then base * (7/10) else base
  max 200 (min 1000 base2)

/-- `AutoOptimizer._optimize_first_buy_threshold`. -/
def optimizeFirstBuyThreshold (c : MarketConditions) : ℚ :=
  let base : ℚ :=
    if c.avg_spread > 12/100 then 1/2
    else if c.avg_spread < 6/100 then 6/10
    else 55/100
  let base2 : ℚ :=
    if c.volatility_score > 70 then base - 5/100
    else if c.volatility_score < 30 then base + 5/100
    else base
  max (45/100) (min (65/100) base2)

/-- `AutoOptimizer._optimize_refresh_interval`. -/
def optimizeRefreshInterval (c : MarketConditions) : ℚ :=
  let base : ℚ := if c.ws_connected then 3/2 else 1
  let base2 : ℚ :=
    if c.volatility_score > 70 then 1/2
    else if c.volatility_score > 50 then min base 1
    else base
  let base3 : ℚ := if 3 < c.active_positions then min base2 (1/2) else base2
  max (1/2) (min 2 base3)

/-- `AutoOptimizer._compute_optimal_params`. -/
def computeOptimalParams (c : MarketConditions) : OptimizedParams :=
  { max_pair_cost := optimizeMaxPairCost c
    min_improvement := optimizeMinImprovement c
    order_size_usd := optimizeOrderSize c
    max_position_usd := optimizeMaxPosition c
    first_buy_threshold := optimizeFirstBuyThreshold c
    refresh_interval := optimizeRefreshInterval c }

/-- The conditions snapshot of the FULL_AUTO scenario: avg_spread 0.16,
volatility 75, avg_liquidity 60000, 6 active positions, avg_pair_cost 0.99. -/
def optimizerCond0 : MarketConditions :=
  { avg_spread := 16/100
    avg_liquidity := 60000
    volatility_score := 75
    active_positions := 6
    avg_pair_cost := 99/100 }

/-- C5 counterexample.  At the scenario conditions the computed order size is
the plain 50 band: the 1.5 boost needs `avg_pair_cost < 0.96`, and the
snapshot has 0.99, so the result is 50, not the claimed 75. -/
theorem optimizer_order_size_counterexample :
    (computeOptimalParams optimizerCond0).order_size_usd = 50 ∧
    (computeOptimalParams optimizerCond0).order_size_usd ≠ 75 := by
  norm_num [computeOptimalParams, optimizeOrderSize, optimizerCond0]

/-- C5 amended.  At the scenario conditions the computed targets are
`max_pair_cost = 0.90`, `order_size_usd = 50` (the 50 band, unboosted),
`max_position_usd = 525`, `min_improvement = 0.001` and
`first_buy_threshold = 0.45`. -/
theorem optimizer_scenario_params :
    (computeOptimalParams optimizerCond0).max_pair_cost = 9/10 ∧
    (computeOptimalParams optimizerCond0).order_size_usd = 50 ∧
    (computeOptimalParams optimizerCond0).max_position_usd = 525 ∧
    (computeOptimalParams optimizerCond0).min_improvement = 1/1000 ∧
    (computeOptimalParams optimizerCond0).first_buy_threshold = 9/20 := by
  norm_num [computeOptimalParams, optimizeMaxPairCost, optimizeOrderSize,
    optimizeMaxPosition, optimizeMinImprovement, optimizeFirstBuyThreshold,
    optimizerCond0]

/-- `OptimizationEvent` (timestamp omitted). -/
structure OptimizationEvent where
  param_name : String
  old_value : ℚ
  new_value : ℚ
  reason : String
deriving Repr, DecidableEq

/-- The update rule `_apply_params` uses for `max_pair_cost`,
`order_size_usd` and `max_position_usd`: overwrite when the relative change
exceeds the 1 % threshold, returning the new value and whether it changed. -/
def applyField (old new : ℚ) : ℚ × Bool :=
  if |old - new| / old > 1/100 then (new, true) else (old, false)

/-- The three-way change test `_apply_params` uses for `min_improvement`
(zero crossing in either direction, else the relative 1 % threshold). -/
def minImprovementChanged (old new : ℚ) : Bool :=
  if old = 0 ∧ 0 < new then true
  else if 0 < old ∧ new = 0 then true
  else if 0 < old ∧ |old - new| / old > 1/100 then true
  else false

/-- `AutoOptimizer._apply_params`: apply each optimized field to the engine
config when its change test fires, collecting the change list and the
`OptimizationEvent`s logged by this call.  The `first_buy_threshold` branch
is skipped: `GabagoolConfig` has no such field, so its `hasattr` guard is
false. -/
def applyParams (cfg : GabagoolConfig) (p : OptimizedParams) :
    GabagoolConfig × List String × List OptimizationEvent :=
  let r1 := applyField cfg.max_pair_cost p.max_pair_cost
  let miChanged := minImprovementChanged cfg.min_improvement p.min_improvement
  let mi := if miChanged then p.min_improvement else cfg.min_improvement
  let r3 := applyField cfg.order_size_usd p.order_size_usd
  let r4 := applyField cfg.max_position_usd p.max_position_usd
  let changes :=
    (if r1.2 then ["max_pair_cost"] else []) ++
    (if miChanged then ["min_improvement"] else []) ++
    (if r3.2 then ["order_size_usd"] else []) ++
    (if r4.2 then ["max_position_usd"] else [])
  let events :=
    (if r1.2 then
      [{ param_name := "max_pair_cost", old_value := cfg.max_pair_cost,
         new_value := p.max_pair_cost, reason := "spread/volatility" }] else []) ++
    (if miChanged then
      [{ param_name := "min_improvement", old_value := cfg.min_improvement,
         new_value := p.min_improvement, reason := "position_state" }] else []) ++
    (if r3.2 then
      [{ param_name := "order_size_usd", old_value := cfg.order_size_usd,
         new_value := p.order_size_usd, reason := "liquidity" }] else []) ++
    (if r4.2 then
      [{ param_name := "max_position_usd", old_value := cfg.max_position_usd,
         new_value := p.max_position_usd, reason := "liquidity/diversification" }] else [])
  ({ cfg with
     max_pair_cost := r1.1
     min_improvement := mi
     order_size_usd := r3.1
     max_position_usd := r4.1 }, changes, events)

lemma applyField_twice (old new : ℚ) :
    applyField (applyField old new).1 new = ((applyField old new).1, false) := by
  unfold applyField
  split_ifs with h1 h2 <;> first
    | rfl
    | (exfalso; simp_all; linarith)

lemma minImprovementChanged_twice (old new : ℚ) :
    minImprovementChanged
      (if minImprovementChanged old new then new else old) new = false := by
  unfold minImprovementChanged
  split_ifs <;> simp_all <;> linarith

/-- C7.  In FULL_AUTO, applying the same optimized parameters twice in a row
is idempotent in events: the second `_apply_params` call changes no config
field, returns an empty change list and logs no `OptimizationEvent`.  The
positivity hypotheses keep the model inside the domain where the Python
relative-change divisions are defined. -/
theorem apply_params_idempotent (cfg : GabagoolConfig) (p : OptimizedParams)
    (_h1 : 0 < cfg.max_pair_cost) (_h2 : 0 < cfg.order_size_usd)
    (_h3 : 0 < cfg.max_position_usd) (_h4 : 0 < p.max_pair_cost)
    (_h5 : 0 < p.order_size_usd) (_h6 : 0 < p.max_position_usd) :
    (applyParams (applyParams cfg p).1 p).1 = (applyParams cfg p).1 ∧
    (applyParams (applyParams cfg p).1 p).2.1 = [] ∧
    (applyParams (applyParams cfg p).1 p).2.2 = [] := by
  unfold applyParams
  simp only [applyField_twice, minImprovementChanged_twice]
  refine ⟨?_, rfl, rfl⟩
  cases cfg
  simp [applyField]

/-- Concrete instantiation of `apply_params_idempotent` at the source default
config and the scenario's optimized parameters. -/
theorem apply_params_idempotent_witness :
    ((0:ℚ) < GabagoolConfig.max_pair_cost {} ∧
     (0:ℚ) < (computeOptimalParams optimizerCond0).max_pair_cost) ∧
    ((applyParams (applyParams {} (computeOptimalParams optimizerCond0)).1
        (computeOptimalParams optimizerCond0)).1 =
      (applyParams {} (computeOptimalParams optimizerCond0)).1 ∧
     (applyParams (applyParams {} (computeOptimalParams optimizerCond0)).1
        (computeOptimalParams optimizerCond0)).2.1 = [] ∧
     (applyParams (applyParams {} (computeOptimalParams optimizerCond0)).1
        (computeOptimalParams optimizerCond0)).2.2 = []) :=
  ⟨⟨by norm_num [GabagoolConfig.max_pair_cost],
    by norm_num [computeOptimalParams, optimizeMaxPairCost, optimizerCond0]⟩,
   apply_params_idempotent {} (computeOptimalParams optimizerCond0)
     (by norm_num [GabagoolConfig.max_pair_cost])
     (by norm_num [GabagoolConfig.order_size_usd])
     (by norm_num [GabagoolConfig.max_position_usd])
     (by norm_num [computeOptimalParams, optimizeMaxPairCost, optimizerCond0])
     (by norm_num [computeOptimalParams, optimizeOrderSize, optimizerCond0])
     (by norm_num [computeOptimalParams, optimizeMaxPosition, optimizerCond0])⟩


/-! ## Trade manager (src/core/trade_manager.py) -/

/-- `TradeStatus`. -/
inductive TradeStatus where
  | pending
  | active
  | closed
  | stopped_out
  | take_profit
  | trailing
  | cancelled
deriving Repr, DecidableEq

/-- `TradeSide`. -/
inductive TradeSide where
  | yes
  | no
deriving Repr, DecidableEq

/-- `CloseReason`. -/
inductive CloseReason where
  | manual
  | stop_loss
  | take_profit
  | trailing_stop
  | timeout
deriving Repr, DecidableEq

/-- Embeds `Trade`.  The `market_question` text and the `opened_at` /
`closed_at` timestamps are omitted; where the source reads the wall clock
(`duration_seconds`), the elapsed seconds are passed in explicitly. -/
structure Trade where
  id : String
  market_id : String
  side : TradeSide
  entry_price : ℚ
  size : ℚ
  current_price : ℚ := 0
  stop_loss : Option ℚ := none
  take_profit : Option ℚ := none
  trailing_stop_pct : Option ℚ := none
  highest_price : ℚ := 0
  max_duration_seconds : ℤ := 0
  status : TradeStatus := .active
  close_reason : Option CloseReason := none
  exit_price : Option ℚ := none
deriving Repr, DecidableEq

/-- `Trade.unrealized_pnl` property. -/
def Trade.unrealized_pnl (t : Trade) : ℚ :=
  if t.status ≠ TradeStatus.active then 0
  else (t.current_price - t.entry_price) * t.size

/-- `Trade.realized_pnl` property: as written in the source it is 0 unless
the status is exactly `CLOSED` (so not for `STOPPED_OUT`, `TAKE_PROFIT` or
`TRAILING_STOP`) or the exit price is unset. -/
def Trade.realized_pnl (t : Trade) : ℚ :=
  if t.status ≠ TradeStatus.closed ∨ t.exit_price = none then 0
  else (t.exit_price.getD 0 - t.entry_price) * t.size

/-- `Trade.trailing_stop_price` property (truthiness on the percentage). -/
def Trade.trailing_stop_price (t : Trade) : Option ℚ :=
  if optTruthy t.trailing_stop_pct = false ∨ t.highest_price ≤ 0 then none
  else some (t.highest_price * (1 - t.trailing_stop_pct.getD 0))

/-- `Trade.should_stop_loss`. -/
def Trade.should_stop_loss (t : Trade) : Bool :=
  if optTruthy t.stop_loss = false ∨ t.status ≠ TradeStatus.active then false
  else decide (t.current_price ≤ t.stop_loss.getD 0)

/-- `Trade.should_take_profit`. -/
def Trade.should_take_profit (t : Trade) : Bool :=
  if optTruthy t.take_profit = false ∨ t.status ≠ TradeStatus.active then false
  else decide (t.current_price ≥ t.take_profit.getD 0)

/-- `Trade.should_trailing_stop` (truthiness on the computed trailing
price). -/
def Trade.should_trailing_stop (t : Trade) : Bool :=
  if optTruthy t.trailing_stop_price = false ∨ t.status ≠ TradeStatus.active then false
  else decide (t.current_price ≤ t.trailing_stop_price.getD 0)

/-- `Trade.should_timeout`, with the trade's age passed explicitly. -/
def Trade.should_timeout (t : Trade) (dur : ℤ) : Bool :=
  if t.max_duration_seconds ≤ 0 ∨ t.status ≠ TradeStatus.active then false
  else decide (t.max_duration_seconds ≤ dur)

/-- `Trade.check_exit_conditions`: stop-loss, take-profit, trailing stop,
timeout, in that precedence. -/
def Trade.check_exit_conditions (t : Trade) (dur : ℤ) : Option CloseReason :=
  if t.should_stop_loss then some .stop_loss
  else if t.should_take_profit then some .take_profit
  else if t.should_trailing_stop then some .trailing_stop
  else if t.should_timeout dur then some .timeout
  else none

/-- Dictionary lookup on the trade map. -/
def lookupTrade (l : List (String × Trade)) (tid : String) : Option Trade :=
  (l.find? (fun kv => kv.1 == tid)).map Prod.snd

/-- Dict assignment for an existing trade id. -/
def setTrade (l : List (String × Trade)) (tid : String) (t : Trade) :
    List (String × Trade) :=
  l.map (fun kv => if kv.1 == tid then (tid, t) else kv)

/-- Dictionary lookup on the market index. -/
def lookupStrList (l : List (String × List String)) (k : String) :
    Option (List String) :=
  (l.find? (fun kv => kv.1 == k)).map Prod.snd

/-- Dict assignment for an existing market index key. -/
def setStrList (l : List (String × List String)) (k : String) (v : List String) :
    List (String × List String) :=
  l.map (fun kv => if kv.1 == k then (k, v) else kv)

/-- Dict key deletion on the market index. -/
def eraseKey (l : List (String × List String)) (k : String) :
    List (String × List String) :=
  l.filter (fun kv => kv.1 != k)

/-- Embeds the `TradeManager` state the claims read: the trade map, the
monotone counter, the `auto_sl_tp` flag and the `market_id → [trade_id]`
index.  Both maps are association lists in dict insertion order. -/
structure TradeManager where
  trades : List (String × Trade) := []
  trade_counter : ℕ := 0
  auto_sl_tp : Bool := true
  trades_by_market : List (String × List String) := []
deriving Repr, DecidableEq

/-- `TradeManager.open_trade`: bump the counter, default the stop-loss to
`entry·0.85` and the take-profit to `entry·1.20` when `auto_sl_tp` is set and
the caller omitted them, clip both into `[0.01, 0.99]`, and store the new
active trade.  The generated id keeps only the counter (the source also
appends a wall-clock timestamp); the market index is NOT touched. -/
def openTrade (tm : TradeManager) (market_id : String) (side : TradeSide)
    (entry_price size : ℚ) (stop_loss take_profit trailing_stop_pct : Option ℚ)
    (max_duration_seconds : ℤ) : Trade × TradeManager :=
  let counter := tm.trade_counter + 1
  let tid := "trade_" ++ toString counter
  let sl0 := if tm.auto_sl_tp then
      (match stop_loss with
       | none => some (entry_price * (1 - 15/100))
       | some v => some v)
    else stop_loss
  let tp0 := if tm.auto_sl_tp then
      (match take_profit with
       | none => some (entry_price * (1 + 20/100))
       | some v => some v)
    else take_profit
  let t : Trade :=
    { id := tid
      market_id := market_id
      side := side
      entry_price := entry_price
      size := size
      current_price := entry_price
      stop_loss := sl0.map clip01
      take_profit := tp0.map clip01
      trailing_stop_pct := trailing_stop_pct
      highest_price := entry_price
      max_duration_seconds := max_duration_seconds
      status := .active }
  (t, { tm with trades := tm.trades ++ [(tid, t)], trade_counter := counter })

/-- `TradeManager.update_price`: set the current price, raise the
trailing-stop high-water mark, and report a fired exit condition. -/
def updatePrice (tm : TradeManager) (tid : String) (price : ℚ) (dur : ℤ) :
    Option CloseReason × TradeManager :=
  match lookupTrade tm.trades tid with
  | none => (none, tm)
  | some t =>
    if t.status ≠ TradeStatus.active then (none, tm)
    else
      let t1 := { t with current_price := price }
      let t2 := if t1.highest_price < price then { t1 with highest_price := price } else t1
      (t2.check_exit_conditions dur, { tm with trades := setTrade tm.trades tid t2 })

/-- The status `close_trade` assigns for each close reason. -/
def closeReasonStatus (reason : CloseReason) : TradeStatus :=
  match reason with
  | .stop_loss => .stopped_out
  | .take_profit => .take_profit
  | .trailing_stop => .trailing
  | _ => .closed

/-- `TradeManager.close_trade` (and the state change of `close_trade_async`,
whose only extra step is the external sell order): one-shot transition of an
active trade to its terminal status with exit price and close reason. -/
def closeTrade (tm : TradeManager) (tid : String) (exit_price : ℚ)
    (reason : CloseReason) : Option Trade × TradeManager :=
  match lookupTrade tm.trades tid with
  | none => (none, tm)
  | some t =>
    if t.status ≠ TradeStatus.active then (none, tm)
    else
      let t1 := { t with
        status := closeReasonStatus reason
        exit_price := some exit_price
        close_reason := some reason }
      (some t1, { tm with trades := setTrade tm.trades tid t1 })

/-- `TradeManager._add_to_market_index`. -/
def addToMarketIndex (tm : TradeManager) (t : Trade) : TradeManager :=
  match lookupStrList tm.trades_by_market t.market_id with
  | none =>
    { tm with trades_by_market := tm.trades_by_market ++ [(t.market_id, [t.id])] }
  | some ids =>
    if t.id ∈ ids then tm
    else
      { tm with
        trades_by_market := setStrList tm.trades_by_market t.market_id (ids ++ [t.id]) }

/-- `TradeManager._remove_from_market_index`: drop the id (first occurrence)
and delete the key when its list empties. -/
def removeFromMarketIndex (tm : TradeManager) (t : Trade) : TradeManager :=
  match lookupStrList tm.trades_by_market t.market_id with
  | none => tm
  | some ids =>
    let ids2 := if t.id ∈ ids then ids.erase t.id else ids
    if ids2 = [] then
      { tm with trades_by_market := eraseKey tm.trades_by_market t.market_id }
    else
      { tm with trades_by_market := setStrList tm.trades_by_market t.market_id ids2 }

/-- `TradeManager.register_trade_for_events`. -/
def registerTradeForEvents (tm : TradeManager) (t : Trade) : TradeManager :=
  addToMarketIndex tm t

/-- `TradeManager.get_trades_for_market`: the indexed trades that still exist
and are active. -/
def getTradesForMarket (tm : TradeManager) (mid : String) : List Trade :=
  let tids := (lookupStrList tm.trades_by_market mid).getD []
  tids.filterMap (fun tid =>
    match lookupTrade tm.trades tid with
    | some t => if t.status = TradeStatus.active then some t else none
    | none => none)

/-- `TradeManager.on_price_update`: for each indexed active trade of the
market, update its price and, when an exit fires, close it at the event price
and drop it from the index, collecting the closed trades. -/
def onPriceUpdate (tm : TradeManager) (mid : String) (price : ℚ) (dur : ℤ) :
    List Trade × TradeManager :=
  (getTradesForMarket tm mid).foldl
    (fun acc t =>
      let res := updatePrice acc.2 t.id price dur
      match res.1 with
      | none => (acc.1, res.2)
      | some reason =>
        let cres := closeTrade res.2 t.id price reason
        match cres.1 with
        | none => (acc.1, cres.2)
        | some ct => (acc.1 ++ [ct], removeFromMarketIndex cres.2 ct))
    ([], tm)

/-- C9.  `open_trade` does not register the new trade in the
`market_id → trade_ids` index, so for a market absent from the index a
subsequent `on_price_update` finds no trade, returns an empty list, and
leaves the manager (hence the trade's `current_price` and `status`)
unchanged. -/
theorem open_trade_not_event_registered (tm : TradeManager) (mid : String)
    (side : TradeSide) (entry size : ℚ) (sl tp tr : Option ℚ) (maxdur : ℤ)
    (price : ℚ) (dur : ℤ)
    (h : lookupStrList tm.trades_by_market mid = none) :
    lookupStrList
      ((openTrade tm mid side entry size sl tp tr maxdur).2).trades_by_market mid =
      none ∧
    onPriceUpdate (openTrade tm mid side entry size sl tp tr maxdur).2 mid price dur =
      ([], (openTrade tm mid side entry size sl tp tr maxdur).2) := by
  have hidx :
      ((openTrade tm mid side entry size sl tp tr maxdur).2).trades_by_market =
        tm.trades_by_market := rfl
  refine ⟨by rw [hidx]; exact h, ?_⟩
  unfold onPriceUpdate getTradesForMarket
  rw [hidx, h]
  rfl

/-- Concrete instantiation of `open_trade_not_event_registered` on the empty
manager. -/
theorem open_trade_not_event_registered_witness :
    lookupStrList
      ((openTrade {} "m1" TradeSide.yes (1/2) 100 none none none 0).2).trades_by_market
      "m1" = none ∧
    onPriceUpdate (openTrade {} "m1" TradeSide.yes (1/2) 100 none none none 0).2
        "m1" (79/200) 0 =
      ([], (openTrade {} "m1" TradeSide.yes (1/2) 100 none none none 0).2) :=
  open_trade_not_event_registered {} "m1" TradeSide.yes (1/2) 100 none none none 0
    (79/200) 0 rfl

/-- The manager state of the stop-loss scenario: a YES trade at entry 0.50,
size 100, explicit stop-loss 0.40, registered for price events. -/
def stopLossTm : TradeManager :=
  registerTradeForEvents
    (openTrade {} "m1" TradeSide.yes (1/2) 100 (some (2/5)) none none 0).2
    (openTrade {} "m1" TradeSide.yes (1/2) 100 (some (2/5)) none none 0).1

/-- C3 evaluation at the failing input.  The price event at 0.395 finds the
one registered trade and closes it with reason `STOP_LOSS` and exit price
0.395 — but the closed trade's `realized_pnl` property is 0, not the claimed
`(0.395 − 0.50)·100 = −10.50`, because the trade's terminal status is
`STOPPED_OUT` while `realized_pnl` pays out only for status `CLOSED`. -/
theorem stop_loss_event_scenario :
    (onPriceUpdate stopLossTm "m1" (79/200) 0).1.map Trade.close_reason =
      [some CloseReason.stop_loss] ∧
    (onPriceUpdate stopLossTm "m1" (79/200) 0).1.map Trade.exit_price =
      [some (79/200)] ∧
    (onPriceUpdate stopLossTm "m1" (79/200) 0).1.map Trade.status =
      [TradeStatus.stopped_out] ∧
    (onPriceUpdate stopLossTm "m1" (79/200) 0).1.map Trade.realized_pnl = [0] ∧
    ((79:ℚ)/200 - 1/2) * 100 = -(21/2) := by
  norm_num [onPriceUpdate, stopLossTm, registerTradeForEvents, addToMarketIndex,
    openTrade, getTradesForMarket, lookupStrList, lookupTrade, updatePrice,
    setTrade, closeTrade, closeReasonStatus, removeFromMarketIndex, eraseKey,
    setStrList, clip01, Trade.check_exit_conditions, Trade.should_stop_loss,
    Trade.should_take_profit, Trade.should_trailing_stop, Trade.should_timeout,
    Trade.trailing_stop_price, Trade.realized_pnl, optTruthy, List.find?,
    List.filterMap, List.foldl]
  intro hcontra
  exact absurd hcontra (by decide)


/-! ## Persistence (src/config/trading_params.py, TradeManager save/load) -/

/-- A JSON value as the params file uses: float, int, bool, string list or
null.  File serialization itself is bijective on these values; the claims
concern the to-dict / from-dict layer. -/
inductive JVal where
  | num (q : ℚ)
  | int (n : ℤ)
  | bool (b : Bool)
  | strList (l : List String)
  | null
deriving Repr, DecidableEq

/-- `TradingParams.to_dict` (`dataclasses.asdict`): every field under its
name. -/
def TradingParams.to_dict (p : TradingParams) : List (String × JVal) :=
  [("min_spread", .num p.min_spread),
   ("max_spread", .num p.max_spread),
   ("min_volume_usd", .num p.min_volume_usd),
   ("min_depth_usd", .num p.min_depth_usd),
   ("max_duration_hours", .int p.max_duration_hours),
   ("capital_per_trade", .num p.capital_per_trade),
   ("max_open_positions", .int p.max_open_positions),
   ("max_total_exposure", .num p.max_total_exposure),
   ("order_offset", .num p.order_offset),
   ("position_timeout_seconds", .int p.position_timeout_seconds),
   ("min_time_between_trades", .int p.min_time_between_trades),
   ("target_assets",
    match p.target_assets with
    | some l => .strList l
    | none => .null),
   ("auto_trading_enabled", .bool p.auto_trading_enabled),
   ("require_confirmation", .bool p.require_confirmation)]

/-- Lookup in a decoded params dict. -/
def lookupJ (d : List (String × JVal)) (k : String) : Option JVal :=
  (d.find? (fun kv => kv.1 == k)).map Prod.snd

/-- Read a float field, falling back to the dataclass default. -/
def getNum (d : List (String × JVal)) (k : String) (dflt : ℚ) : ℚ :=
  match lookupJ d k with
  | some (.num q) => q
  | _ => dflt

/-- Read an int field, falling back to the dataclass default. -/
def getInt (d : List (String × JVal)) (k : String) (dflt : ℤ) : ℤ :=
  match lookupJ d k with
  | some (.int n) => n
  | _ => dflt

/-- Read a bool field, falling back to the dataclass default. -/
def getBool (d : List (String × JVal)) (k : String) (dflt : Bool) : Bool :=
  match lookupJ d k with
  | some (.bool b) => b
  | _ => dflt

/-- `TradingParams.from_dict` composed with the dataclass constructor: known
keys are taken from the dict, anything missing keeps its default. -/
def TradingParams.from_dict (d : List (String × JVal)) : TradingParams :=
  { min_spread := getNum d "min_spread" (6/100)
    max_spread := getNum d "max_spread" (25/100)
    min_volume_usd := getNum d "min_volume_usd" 20000
    min_depth_usd := getNum d "min_depth_usd" 50
    max_duration_hours := getInt d "max_duration_hours" 24
    capital_per_trade := getNum d "capital_per_trade" 50
    max_open_positions := getInt d "max_open_positions" 5
    max_total_exposure := getNum d "max_total_exposure" 500
    order_offset := getNum d "order_offset" (1/100)
    position_timeout_seconds := getInt d "position_timeout_seconds" 0
    min_time_between_trades := getInt d "min_time_between_trades" 5
    target_assets :=
      match lookupJ d "target_assets" with
      | some (.strList l) => some l
      | _ => none
    auto_trading_enabled := getBool d "auto_trading_enabled" false
    require_confirmation := getBool d "require_confirmation" true }

/-- The trades file as `_save_trades_sync` writes it: the counter and the
serialized trade records.  The serialization of each trade is injective on
the fields kept here, so the file carries the full trade list. -/
structure TradesFile where
  counter : ℕ
  trades : List (String × Trade)
deriving Repr, DecidableEq

/-- `TradeManager._save_trades_sync` as a record. -/
def saveTrades (tm : TradeManager) : TradesFile :=
  { counter := tm.trade_counter, trades := tm.trades }

/-- Constructing a new `TradeManager` over an existing trades file:
`__init__` starts every collection empty and `_load_trades` restores ONLY the
counter — the serialized trades are never reconstructed. -/
def loadTradeManager (f : TradesFile) (auto_sl_tp : Bool) : TradeManager :=
  { trades := [], trade_counter := f.counter, auto_sl_tp := auto_sl_tp,
    trades_by_market := [] }

/-- A manager holding one open trade. -/
def savedTm1 : TradeManager :=
  (openTrade {} "m1" TradeSide.yes (1/2) 100 none none none 0).2

/-- C6 counterexample.  Saving a manager that holds one trade and rebuilding
a manager from the file does not restore an equal record: the counter
survives but the trade set comes back empty. -/
theorem trades_roundtrip_counterexample :
    (loadTradeManager (saveTrades savedTm1) savedTm1.auto_sl_tp).trades = [] ∧
    savedTm1.trades.length = 1 ∧
    loadTradeManager (saveTrades savedTm1) savedTm1.auto_sl_tp ≠ savedTm1 := by
  refine ⟨rfl, rfl, ?_⟩
  intro hcontra
  have h1 : (loadTradeManager (saveTrades savedTm1) savedTm1.auto_sl_tp).trades =
      savedTm1.trades := by rw [hcontra]
  have h2 : (0:ℕ) = 1 := congrArg List.length h1
  exact absurd h2 (by decide)

/-- C6 amended.  Trading params survive the to-dict / from-dict round trip
unchanged; for the trades file, rebuilding a manager restores only the
counter, and the trade map of the rebuilt manager is empty. -/
theorem persistence_roundtrip (p : TradingParams) (tm : TradeManager) :
    TradingParams.from_dict (TradingParams.to_dict p) = p ∧
    (loadTradeManager (saveTrades tm) tm.auto_sl_tp).trade_counter =
      tm.trade_counter ∧
    (loadTradeManager (saveTrades tm) tm.auto_sl_tp).trades = [] := by
  refine ⟨?_, rfl, rfl⟩
  cases hta : p.target_assets <;>
  · simp [TradingParams.from_dict, TradingParams.to_dict, getNum, getInt,
      getBool, lookupJ, List.find?, hta]
    rw [← hta]


end Spec2Proof
